import Mathlib

/-!
# Texture-unit binding protocol of `vtkOpenGL2Property`

A shallow embedding of `Rendering/OpenGL2/vtkOpenGL2Property.cxx`: the methods
`LoadMultiTexturingExtensions`, `RenderTextures`, `PostRender` and
`ReleaseGraphicsResources` become functions on an explicit state holding the
property object, the `vtkgl` entry points, the active texture unit of the
graphics context, the texture-unit manager of the render window and the log of
every external call the methods issue, in program order.

The collaborators that the file only calls (the extension manager, the
textures, the texture-unit manager, the superclass) are not part of the file;
a call to one of them is recorded in the log, and the few effects the methods
depend on are taken from the specification or left as parameters of the
`RenderContext`.
-/

namespace vtkOpenGL2Property

/-! ## Data model -/

/-- The three names handed to the extension manager: the string literals
"GL_VERSION_1_3", "GL_VERSION_1_2" and "GL_ARB_multitexture". -/
inductive ExtensionName
  | GL_VERSION_1_3
  | GL_VERSION_1_2
  | GL_ARB_multitexture
  deriving DecidableEq, Repr

/-- The capabilities the file passes to `glDisable`. -/
inductive Capability
  | GL_CULL_FACE
  | GL_TEXTURE_1D
  | GL_TEXTURE_2D
  | TEXTURE_3D
  | TEXTURE_RECTANGLE_ARB
  | TEXTURE_CUBE_MAP
  deriving DecidableEq, Repr

/-- The messages of the three `vtkErrorMacro` calls:
`numberOfTextures` is "Hardware does not support the number of textures defined.",
`textureUnit u` is "Hardware does not support the texture unit u.",
`notEnoughUnits` is " not enough texture units.". -/
inductive Diagnostic
  | numberOfTextures
  | textureUnit (texture_unit : Int)
  | notEnoughUnits
  deriving DecidableEq, Repr

/-- One external call issued by the methods. `ActiveTexture n` stands for
`vtkgl::ActiveTexture(vtkgl::TEXTURE0 + n)` with `n` a `GLenum` offset;
`TextureRender tex` for `tex->Render(ren)`; `TextureRelease tex` for
`tex->ReleaseGraphicsResources(win)`; `GetMaxTextureUnits` for
`glGetIntegerv(vtkgl::MAX_TEXTURE_UNITS, ..)`; `Error d` for `vtkErrorMacro`;
`Allocate r` for a call of `m->Allocate()` that returned `r`. -/
inductive GLCall
  | ExtensionSupported (name : ExtensionName)
  | LoadExtension (name : ExtensionName)
  | LoadCorePromotedExtension (name : ExtensionName)
  | GetMaxTextureUnits
  | ActiveTexture (n : Nat)
  | TextureRender (tex : Nat)
  | TextureRelease (tex : Nat)
  | Disable (cap : Capability)
  | PolygonModeFill
  | Error (d : Diagnostic)
  | Allocate (result : Int)
  | Free (textureUnit : Int)
  | SetTexture (textureUnit : Int) (tex : Nat)
  | OpenGLClearError
  | OpenGLCheckError
  | SuperclassPostRender
  | SuperclassReleaseGraphicsResources
  deriving DecidableEq, Repr

/-- Modelled from the spec: the texture container of the superclass
(`GetNumberOfTextures`, `GetTextureUnitAtIndex`, `GetTextureAtIndex`) is not in
the file. Per the spec it is an ordered sequence of slots, index 0..N-1, each
holding a texture reference and an integer hardware unit. `unit` is what
`GetTextureUnitAtIndex` returns for the slot, `texture` identifies the object
`GetTextureAtIndex` returns, and `index` is what `GetIndex()` of that texture
reports (0 for a texture without a handle). -/
structure TextureSlot where
  unit : Int
  texture : Nat
  index : Nat
  deriving DecidableEq, Repr

/-- The two `vtkgl` function pointers the file tests: `true` means resolved
(non-null). -/
structure EntryPoints where
  MultiTexCoord2d : Bool
  ActiveTexture : Bool
  deriving DecidableEq, Repr

/-- Modelled from the spec: `vtkTextureUnitManager` is not in the file. Per the
spec the pool tracks which of the hardware units are currently allocated.
`TextureUnits[i] = true` means unit `i` is allocated. -/
structure vtkTextureUnitManager where
  TextureUnits : List Bool
  deriving DecidableEq, Repr

/-- The capability set of the graphics context, read-only for the methods:
what `ExtensionSupported` answers, what `glGetIntegerv(MAX_TEXTURE_UNITS)`
reports, and what loading an extension does to the `vtkgl` entry points. -/
structure RenderContext where
  ExtensionSupported : ExtensionName → Int
  MAX_TEXTURE_UNITS : Int
  LoadExtension : ExtensionName → EntryPoints → EntryPoints
  LoadCorePromotedExtension : ExtensionName → EntryPoints → EntryPoints

/-- The argument of `ReleaseGraphicsResources`: `none` is a null window. -/
structure vtkWindow where
  Mapped : Bool
  deriving DecidableEq, Repr

/-- The mutable state the methods run on. -/
structure State where
  Textures : List TextureSlot
  BackfaceCulling : Bool
  FrontfaceCulling : Bool
  vtkgl : EntryPoints
  activeTexture : Nat
  TextureUnitManager : vtkTextureUnitManager
  calls : List GLCall
  deriving DecidableEq, Repr

/-! ## Primitive steps -/

/-- Conversion `static_cast<GLenum>(texture_unit)` of an `int` to a 32-bit
unsigned value. -/
def toGLenum (texture_unit : Int) : Nat :=
  (texture_unit % 4294967296).toNat

/-- Append one call to the log. -/
def State.log (st : State) (c : GLCall) : State :=
  { st with calls := st.calls ++ [c] }

/-- Effect of `vtkgl::ActiveTexture(vtkgl::TEXTURE0 + n)`: unit `n` becomes the
active unit of the context. -/
def ActiveTexture (st : State) (n : Nat) : State :=
  { st with activeTexture := n, calls := st.calls ++ [GLCall.ActiveTexture n] }

/-- Modelled from the spec: `Free(unit index)` returns the unit to the pool. -/
def vtkTextureUnitManager.Free (m : vtkTextureUnitManager) (textureUnit : Int) :
    vtkTextureUnitManager :=
  if 0 ≤ textureUnit ∧ textureUnit < m.TextureUnits.length then
    { TextureUnits := m.TextureUnits.set textureUnit.toNat false }
  else m

/-- Number of free units of the pool. -/
def vtkTextureUnitManager.freeCount (m : vtkTextureUnitManager) : Nat :=
  m.TextureUnits.count false

/-! ## The methods -/

/-- Source: `vtkOpenGL2Property::LoadMultiTexturingExtensions`. -/
def LoadMultiTexturingExtensions (ren : RenderContext) (st : State) : State :=
  if !st.vtkgl.MultiTexCoord2d || !st.vtkgl.ActiveTexture then
    let supports_GL_1_3 := ren.ExtensionSupported ExtensionName.GL_VERSION_1_3
    let st := st.log (GLCall.ExtensionSupported ExtensionName.GL_VERSION_1_3)
    let supports_GL_1_2_1 := ren.ExtensionSupported ExtensionName.GL_VERSION_1_2
    let st := st.log (GLCall.ExtensionSupported ExtensionName.GL_VERSION_1_2)
    let supports_ARB_mutlitexture :=
      ren.ExtensionSupported ExtensionName.GL_ARB_multitexture
    let st := st.log (GLCall.ExtensionSupported ExtensionName.GL_ARB_multitexture)
    if supports_GL_1_3 ≠ 0 then
      { st with
        vtkgl := ren.LoadExtension ExtensionName.GL_VERSION_1_3 st.vtkgl,
        calls := st.calls ++ [GLCall.LoadExtension ExtensionName.GL_VERSION_1_3] }
    else if supports_GL_1_2_1 ≠ 0 ∧ supports_ARB_mutlitexture ≠ 0 then
      let st : State :=
        { st with
          vtkgl := ren.LoadExtension ExtensionName.GL_VERSION_1_2 st.vtkgl,
          calls := st.calls ++ [GLCall.LoadExtension ExtensionName.GL_VERSION_1_2] }
      { st with
        vtkgl := ren.LoadCorePromotedExtension ExtensionName.GL_ARB_multitexture st.vtkgl,
        calls := st.calls ++
          [GLCall.LoadCorePromotedExtension ExtensionName.GL_ARB_multitexture] }
    else st
  else st

/-- The `for` loop of the fixed-unit branch of `RenderTextures`, over the slots
from the current index on. -/
def RenderTextures_loop (numSupportedTextures : Int) : List TextureSlot → State → State
  | [], st => st
  | s :: rest, st =>
    let texture_unit := s.unit
    if texture_unit ≥ numSupportedTextures ∨ texture_unit < 0 then
      RenderTextures_loop numSupportedTextures rest
        (st.log (GLCall.Error Diagnostic.numberOfTextures))
    else
      RenderTextures_loop numSupportedTextures rest
        ((ActiveTexture st (toGLenum texture_unit)).log (GLCall.TextureRender s.texture))

/-- The `if (true)` block of `RenderTextures`: fixed-pipeline multitexturing. -/
def RenderTextures_fixed (ren : RenderContext) (st : State) : State :=
  let st := LoadMultiTexturingExtensions ren st
  if st.vtkgl.ActiveTexture then
    let numSupportedTextures := ren.MAX_TEXTURE_UNITS
    let st := st.log GLCall.GetMaxTextureUnits
    let st := RenderTextures_loop numSupportedTextures st.Textures st
    ActiveTexture st 0
  else
    match st.Textures with
    | s :: _ => st.log (GLCall.TextureRender s.texture)
    | [] => st

/-- Source: `vtkOpenGL2Property::RenderTextures`. The source selects the
fixed-pipeline block by the constant condition `if (true)`; the `else` block
of that condition, which would take the units from the texture-unit manager,
is never executed and has no counterpart here. -/
def RenderTextures (ren : RenderContext) (st : State) : Bool × State :=
  let numTextures := st.Textures.length
  if numTextures > 0 then
    let st := RenderTextures_fixed ren st
    (decide (numTextures > 0), st.log GLCall.OpenGLCheckError)
  else
    (decide (numTextures > 0), st.log GLCall.OpenGLCheckError)

/-- The `for` loop of the fixed-unit branch of `PostRender`. -/
def PostRender_loop (numSupportedTextures : Int) : List TextureSlot → State → State
  | [], st => st
  | s :: rest, st =>
    let texture_unit := s.unit
    if texture_unit ≥ numSupportedTextures ∨ texture_unit < 0 then
      PostRender_loop numSupportedTextures rest
        (st.log (GLCall.Error Diagnostic.numberOfTextures))
    else
      let st := ActiveTexture st (toGLenum texture_unit)
      let st := st.log (GLCall.Disable Capability.GL_TEXTURE_1D)
      let st := st.log (GLCall.Disable Capability.GL_TEXTURE_2D)
      let st := st.log (GLCall.Disable Capability.TEXTURE_3D)
      let st := st.log (GLCall.Disable Capability.TEXTURE_RECTANGLE_ARB)
      let st := st.log (GLCall.Disable Capability.TEXTURE_CUBE_MAP)
      PostRender_loop numSupportedTextures rest st

/-- The `if (true)` block of `PostRender`. -/
def PostRender_fixed (ren : RenderContext) (st : State) : State :=
  let numSupportedTextures := ren.MAX_TEXTURE_UNITS
  let st := st.log GLCall.GetMaxTextureUnits
  let st := PostRender_loop numSupportedTextures st.Textures st
  ActiveTexture st 0

/-- The `for` loop of the `else` block of `PostRender`: every slot's unit is
handed to `Free`. -/
def PostRender_freeLoop : List TextureSlot → State → State
  | [], st => st
  | s :: rest, st =>
    let textureUnit := s.unit
    PostRender_freeLoop rest
      { st with
        TextureUnitManager := st.TextureUnitManager.Free textureUnit,
        calls := st.calls ++ [GLCall.Free textureUnit] }

/-- The `else` block of `PostRender`. -/
def PostRender_free (st : State) : State :=
  ActiveTexture (PostRender_freeLoop st.Textures st) 0

/-- Source: `vtkOpenGL2Property::PostRender`. -/
def PostRender (ren : RenderContext) (st : State) : State :=
  let st := st.log GLCall.OpenGLClearError
  let st :=
    if st.BackfaceCulling || st.FrontfaceCulling then
      (st.log (GLCall.Disable Capability.GL_CULL_FACE)).log GLCall.PolygonModeFill
    else st
  let st := st.log GLCall.SuperclassPostRender
  let numTextures := st.Textures.length
  let st :=
    if numTextures > 0 ∧ st.vtkgl.ActiveTexture = true then
      if true then PostRender_fixed ren st else PostRender_free st
    else st
  st.log GLCall.OpenGLCheckError

/-- The first `for` loop of `ReleaseGraphicsResources` (window mapped). -/
def ReleaseGraphicsResources_loop (numSupportedTextures : Int) :
    List TextureSlot → State → State
  | [], st => st
  | s :: rest, st =>
    if s.index = 0 then
      ReleaseGraphicsResources_loop numSupportedTextures rest st
    else
      let texture_unit := s.unit
      if texture_unit ≥ numSupportedTextures ∨ texture_unit < 0 then
        ReleaseGraphicsResources_loop numSupportedTextures rest
          (st.log (GLCall.Error (Diagnostic.textureUnit texture_unit)))
      else
        let st := ActiveTexture st (toGLenum texture_unit)
        let st := st.log (GLCall.TextureRelease s.texture)
        ReleaseGraphicsResources_loop numSupportedTextures rest st

/-- The second `for` loop of `ReleaseGraphicsResources` (window not mapped). -/
def ReleaseGraphicsResources_all : List TextureSlot → State → State
  | [], st => st
  | s :: rest, st =>
    ReleaseGraphicsResources_all rest (st.log (GLCall.TextureRelease s.texture))

/-- The test `win && win->GetMapped()`. -/
def liveAndMapped (win : Option vtkWindow) : Bool :=
  match win with
  | some w => w.Mapped
  | none => false

/-- Source: `vtkOpenGL2Property::ReleaseGraphicsResources`. -/
def ReleaseGraphicsResources (ren : RenderContext) (win : Option vtkWindow)
    (st : State) : State :=
  let numTextures := st.Textures.length
  let st :=
    if liveAndMapped win = true ∧ numTextures > 0 ∧ st.vtkgl.ActiveTexture = true then
      let st := st.log GLCall.OpenGLClearError
      let numSupportedTextures := ren.MAX_TEXTURE_UNITS
      let st := st.log GLCall.GetMaxTextureUnits
      let st := ReleaseGraphicsResources_loop numSupportedTextures st.Textures st
      let st := ActiveTexture st 0
      st.log GLCall.OpenGLCheckError
    else if numTextures > 0 ∧ st.vtkgl.ActiveTexture = true then
      ReleaseGraphicsResources_all st.Textures st
    else st
  st.log GLCall.SuperclassReleaseGraphicsResources

/-! ## Observers on the call log and sample inputs -/

/-- The units selected by the `ActiveTexture` calls of a log, in order. -/
def activations (calls : List GLCall) : List Nat :=
  calls.filterMap (fun c => match c with
    | GLCall.ActiveTexture n => some n
    | _ => none)

/-- The textures whose `Render` was called in a log, in order. -/
def rendered (calls : List GLCall) : List Nat :=
  calls.filterMap (fun c => match c with
    | GLCall.TextureRender tex => some tex
    | _ => none)

/-- The textures whose `ReleaseGraphicsResources` was called in a log. -/
def released (calls : List GLCall) : List Nat :=
  calls.filterMap (fun c => match c with
    | GLCall.TextureRelease tex => some tex
    | _ => none)

/-- The diagnostics reported in a log, in order. -/
def diagnostics (calls : List GLCall) : List Diagnostic :=
  calls.filterMap (fun c => match c with
    | GLCall.Error d => some d
    | _ => none)

/-- The calls a fixed-unit bind issues for one slot. -/
def bindCalls (numSupportedTextures : Int) (s : TextureSlot) : List GLCall :=
  if 0 ≤ s.unit ∧ s.unit < numSupportedTextures then
    [GLCall.ActiveTexture (toGLenum s.unit), GLCall.TextureRender s.texture]
  else
    [GLCall.Error Diagnostic.numberOfTextures]

/-- A context with four texture units on which loading changes nothing. -/
def context4 : RenderContext where
  ExtensionSupported := fun _ => 0
  MAX_TEXTURE_UNITS := 4
  LoadExtension := fun _ e => e
  LoadCorePromotedExtension := fun _ e => e

/-- A property with the given slots on a context whose entry points are
resolved, unit 0 active, an empty pool and an empty log. -/
def resolvedState (slots : List TextureSlot) : State where
  Textures := slots
  BackfaceCulling := false
  FrontfaceCulling := false
  vtkgl := { MultiTexCoord2d := true, ActiveTexture := true }
  activeTexture := 0
  TextureUnitManager := { TextureUnits := [] }
  calls := []

/-- The same property on a context whose entry points are unresolved. -/
def unresolvedState (slots : List TextureSlot) : State where
  Textures := slots
  BackfaceCulling := false
  FrontfaceCulling := false
  vtkgl := { MultiTexCoord2d := false, ActiveTexture := false }
  activeTexture := 0
  TextureUnitManager := { TextureUnits := [] }
  calls := []

/-- Three slots with units 0, 5 and 2. -/
def slots052 : List TextureSlot :=
  [{ unit := 0, texture := 10, index := 1 },
   { unit := 5, texture := 11, index := 1 },
   { unit := 2, texture := 12, index := 1 }]

/-- A context with four texture units that supports GL 1.3, whose loading
resolves both entry points. -/
def context13 : RenderContext where
  ExtensionSupported := fun _ => 1
  MAX_TEXTURE_UNITS := 4
  LoadExtension := fun _ _ => { MultiTexCoord2d := true, ActiveTexture := true }
  LoadCorePromotedExtension := fun _ e => e

/-- The calls `PostRender` issues before it looks at the textures. -/
def postRenderPrologue (st : State) : List GLCall :=
  [GLCall.OpenGLClearError] ++
    (if st.BackfaceCulling || st.FrontfaceCulling then
      [GLCall.Disable Capability.GL_CULL_FACE, GLCall.PolygonModeFill]
    else []) ++
    [GLCall.SuperclassPostRender]

/-- A call that touches a texture unit or the pool: an activation, the disabling
of a texture target, an allocation or a release of a unit. -/
def GLCall.isTextureUnitCall : GLCall → Bool
  | GLCall.ActiveTexture _ => true
  | GLCall.Disable Capability.GL_CULL_FACE => false
  | GLCall.Disable _ => true
  | GLCall.Allocate _ => true
  | GLCall.Free _ => true
  | _ => false

/-- The calls a fixed-unit release issues for one slot. -/
def releaseCalls (numSupportedTextures : Int) (s : TextureSlot) : List GLCall :=
  if 0 ≤ s.unit ∧ s.unit < numSupportedTextures then
    [GLCall.ActiveTexture (toGLenum s.unit),
     GLCall.Disable Capability.GL_TEXTURE_1D,
     GLCall.Disable Capability.GL_TEXTURE_2D,
     GLCall.Disable Capability.TEXTURE_3D,
     GLCall.Disable Capability.TEXTURE_RECTANGLE_ARB,
     GLCall.Disable Capability.TEXTURE_CUBE_MAP]
  else
    [GLCall.Error Diagnostic.numberOfTextures]

/-- All the calls one `PostRender` issues on a state. -/
def postRenderCalls (ren : RenderContext) (st : State) : List GLCall :=
  postRenderPrologue st ++
    (if st.Textures ≠ [] ∧ st.vtkgl.ActiveTexture = true then
      [GLCall.GetMaxTextureUnits] ++
        st.Textures.flatMap (releaseCalls ren.MAX_TEXTURE_UNITS) ++
        [GLCall.ActiveTexture 0]
    else []) ++
    [GLCall.OpenGLCheckError]

/-- The units of the slots that pass the range test, in slot order. -/
def inRangeUnits (numSupportedTextures : Int) (slots : List TextureSlot) : List Nat :=
  (slots.filter (fun s => decide (0 ≤ s.unit ∧ s.unit < numSupportedTextures))).map
    (fun s => toGLenum s.unit)

/-- A resolved context with unit 3 active and no slot. -/
def activeUnit3 : State where
  Textures := []
  BackfaceCulling := false
  FrontfaceCulling := false
  vtkgl := { MultiTexCoord2d := true, ActiveTexture := true }
  activeTexture := 3
  TextureUnitManager := { TextureUnits := [false, false] }
  calls := []

/-- Two slots with units 5 and 0. -/
def slots50 : List TextureSlot :=
  [{ unit := 5, texture := 10, index := 1 },
   { unit := 0, texture := 11, index := 1 }]

/-- The calls the mapped-window loop of `ReleaseGraphicsResources` issues for
one slot. -/
def releaseResourceCalls (numSupportedTextures : Int) (s : TextureSlot) : List GLCall :=
  if s.index = 0 then []
  else if 0 ≤ s.unit ∧ s.unit < numSupportedTextures then
    [GLCall.ActiveTexture (toGLenum s.unit), GLCall.TextureRelease s.texture]
  else
    [GLCall.Error (Diagnostic.textureUnit s.unit)]

/-- One slot with unit 0 and a live texture handle. -/
def slots0 : List TextureSlot :=
  [{ unit := 0, texture := 10, index := 1 }]

/-- Three slots: no handle, unit out of range, and a live in-range one. -/
def slotsMixed : List TextureSlot :=
  [{ unit := 1, texture := 10, index := 0 },
   { unit := 9, texture := 11, index := 7 },
   { unit := 3, texture := 12, index := 8 }]

/-- A call that belongs to pool-mode binding: an allocation or a release of a
unit of the texture-unit manager, or the recording of a unit on a slot. -/
def GLCall.isPoolCall : GLCall → Bool
  | GLCall.Allocate _ => true
  | GLCall.Free _ => true
  | GLCall.SetTexture _ _ => true
  | _ => false

/-! ## Lemmas on the primitive steps and loops -/

theorem toGLenum_of_inRange (u M : Int) (h0 : 0 ≤ u) (hM : u < M)
    (hint : M ≤ 2147483647) : (toGLenum u : Int) = u := by
  unfold toGLenum
  omega

theorem RenderTextures_loop_calls (M : Int) (slots : List TextureSlot) (st : State) :
    (RenderTextures_loop M slots st).calls = st.calls ++ slots.flatMap (bindCalls M) := by
  induction slots generalizing st with
  | nil => simp [RenderTextures_loop]
  | cons s rest ih =>
    by_cases h : 0 ≤ s.unit ∧ s.unit < M
    · have h2 : ¬ (s.unit ≥ M ∨ s.unit < 0) := by omega
      simp [RenderTextures_loop, h2, ih, bindCalls, h, State.log, ActiveTexture]
    · have h2 : s.unit ≥ M ∨ s.unit < 0 := by omega
      simp [RenderTextures_loop, h2, ih, bindCalls, h, State.log]

theorem RenderTextures_loop_frame (M : Int) (slots : List TextureSlot) (st : State) :
    (RenderTextures_loop M slots st).Textures = st.Textures ∧
    (RenderTextures_loop M slots st).vtkgl = st.vtkgl ∧
    (RenderTextures_loop M slots st).TextureUnitManager = st.TextureUnitManager ∧
    (RenderTextures_loop M slots st).BackfaceCulling = st.BackfaceCulling ∧
    (RenderTextures_loop M slots st).FrontfaceCulling = st.FrontfaceCulling := by
  induction slots generalizing st with
  | nil => simp [RenderTextures_loop]
  | cons s rest ih =>
    by_cases h2 : s.unit ≥ M ∨ s.unit < 0
    · simp [RenderTextures_loop, h2, ih, State.log]
    · simp [RenderTextures_loop, h2, ih, State.log, ActiveTexture]

theorem LoadMultiTexturingExtensions_frame (ren : RenderContext) (st : State) :
    (LoadMultiTexturingExtensions ren st).Textures = st.Textures ∧
    (LoadMultiTexturingExtensions ren st).activeTexture = st.activeTexture ∧
    (LoadMultiTexturingExtensions ren st).TextureUnitManager = st.TextureUnitManager ∧
    (LoadMultiTexturingExtensions ren st).BackfaceCulling = st.BackfaceCulling ∧
    (LoadMultiTexturingExtensions ren st).FrontfaceCulling = st.FrontfaceCulling := by
  simp only [LoadMultiTexturingExtensions, State.log]
  split_ifs <;> simp

theorem RenderTextures_eq (ren : RenderContext) (st : State) (hN : st.Textures ≠ []) :
    RenderTextures ren st = (true, (RenderTextures_fixed ren st).log GLCall.OpenGLCheckError) := by
  have hpos : st.Textures.length > 0 := List.length_pos.mpr hN
  simp [RenderTextures, hpos]

theorem RenderTextures_fixed_calls (ren : RenderContext) (st : State)
    (hAT : (LoadMultiTexturingExtensions ren st).vtkgl.ActiveTexture = true) :
    (RenderTextures_fixed ren st).calls =
      (LoadMultiTexturingExtensions ren st).calls ++ [GLCall.GetMaxTextureUnits] ++
        st.Textures.flatMap (bindCalls ren.MAX_TEXTURE_UNITS) ++ [GLCall.ActiveTexture 0] := by
  simp [RenderTextures_fixed, hAT, ActiveTexture, RenderTextures_loop_calls, State.log,
    (LoadMultiTexturingExtensions_frame ren st).1]

/-- The calls of the probing are extension queries and loads only. -/
theorem LoadMultiTexturingExtensions_calls_probe (ren : RenderContext) (st : State) :
    ∃ probe : List GLCall,
      (LoadMultiTexturingExtensions ren st).calls = st.calls ++ probe ∧
      ∀ c ∈ probe, ∃ n, c = GLCall.ExtensionSupported n ∨ c = GLCall.LoadExtension n ∨
        c = GLCall.LoadCorePromotedExtension n := by
  simp only [LoadMultiTexturingExtensions, State.log]
  split_ifs
  · exact ⟨_, by simp; rfl, by simp⟩
  · exact ⟨_, by simp; rfl, by simp⟩
  · exact ⟨_, by simp; rfl, by simp⟩
  · exact ⟨[], by simp, by simp⟩

theorem activations_probe (probe : List GLCall)
    (h : ∀ c ∈ probe, ∃ n, c = GLCall.ExtensionSupported n ∨ c = GLCall.LoadExtension n ∨
        c = GLCall.LoadCorePromotedExtension n) : activations probe = [] := by
  simp only [activations, List.filterMap_eq_nil_iff]
  intro c hc
  rcases h c hc with ⟨n, h | h | h⟩ <;> simp [h]

theorem activations_bindCalls (M : Int) (slots : List TextureSlot) :
    activations (slots.flatMap (bindCalls M)) = inRangeUnits M slots := by
  induction slots with
  | nil => rfl
  | cons s rest ih =>
    simp only [activations, inRangeUnits] at ih
    by_cases h : 0 ≤ s.unit ∧ s.unit < M <;>
      simp [activations, inRangeUnits, bindCalls, h, List.filterMap_append, ih]

theorem activations_releaseCalls (M : Int) (slots : List TextureSlot) :
    activations (slots.flatMap (releaseCalls M)) = inRangeUnits M slots := by
  induction slots with
  | nil => rfl
  | cons s rest ih =>
    simp only [activations, inRangeUnits] at ih
    by_cases h : 0 ≤ s.unit ∧ s.unit < M <;>
      simp [activations, inRangeUnits, releaseCalls, h, List.filterMap_append, ih]

theorem PostRender_loop_calls (M : Int) (slots : List TextureSlot) (st : State) :
    (PostRender_loop M slots st).calls = st.calls ++ slots.flatMap (releaseCalls M) := by
  induction slots generalizing st with
  | nil => simp [PostRender_loop]
  | cons s rest ih =>
    by_cases h : 0 ≤ s.unit ∧ s.unit < M
    · have h2 : ¬ (s.unit ≥ M ∨ s.unit < 0) := by omega
      simp [PostRender_loop, h2, ih, releaseCalls, h, State.log, ActiveTexture]
    · have h2 : s.unit ≥ M ∨ s.unit < 0 := by omega
      simp [PostRender_loop, h2, ih, releaseCalls, h, State.log]

theorem PostRender_loop_frame (M : Int) (slots : List TextureSlot) (st : State) :
    (PostRender_loop M slots st).Textures = st.Textures ∧
    (PostRender_loop M slots st).vtkgl = st.vtkgl ∧
    (PostRender_loop M slots st).TextureUnitManager = st.TextureUnitManager ∧
    (PostRender_loop M slots st).BackfaceCulling = st.BackfaceCulling ∧
    (PostRender_loop M slots st).FrontfaceCulling = st.FrontfaceCulling := by
  induction slots generalizing st with
  | nil => simp [PostRender_loop]
  | cons s rest ih =>
    by_cases h2 : s.unit ≥ M ∨ s.unit < 0
    · simp [PostRender_loop, h2, ih, State.log]
    · simp [PostRender_loop, h2, ih, State.log, ActiveTexture]

theorem PostRender_calls (ren : RenderContext) (st : State) :
    (PostRender ren st).calls = st.calls ++ postRenderCalls ren st := by
  by_cases h : st.Textures ≠ [] ∧ st.vtkgl.ActiveTexture = true
  · have hpos : st.Textures.length > 0 := List.length_pos.mpr h.1
    have hne : ¬ st.Textures = [] := h.1
    simp only [PostRender, State.log, postRenderCalls, postRenderPrologue, PostRender_fixed,
      ActiveTexture]
    split_ifs <;> simp_all [PostRender_loop_calls, (PostRender_loop_frame _ _ _).1]
  · have h2 : ¬ (st.Textures.length > 0 ∧ st.vtkgl.ActiveTexture = true) := by
      intro hh; exact h ⟨List.length_pos.mp hh.1, hh.2⟩
    simp only [PostRender, State.log, postRenderCalls, postRenderPrologue]
    split_ifs <;> simp_all

theorem PostRender_frame (ren : RenderContext) (st : State) :
    (PostRender ren st).Textures = st.Textures ∧
    (PostRender ren st).vtkgl = st.vtkgl ∧
    (PostRender ren st).TextureUnitManager = st.TextureUnitManager ∧
    (PostRender ren st).BackfaceCulling = st.BackfaceCulling ∧
    (PostRender ren st).FrontfaceCulling = st.FrontfaceCulling := by
  simp only [PostRender, State.log, PostRender_fixed, ActiveTexture]
  split_ifs <;> simp [PostRender_loop_frame]

theorem PostRender_activeTexture (ren : RenderContext) (st : State) :
    (PostRender ren st).activeTexture =
      if st.Textures ≠ [] ∧ st.vtkgl.ActiveTexture = true then 0 else st.activeTexture := by
  by_cases h : st.Textures ≠ [] ∧ st.vtkgl.ActiveTexture = true
  · have hpos : st.Textures.length > 0 := List.length_pos.mpr h.1
    simp only [PostRender, State.log, PostRender_fixed, ActiveTexture]
    split_ifs <;> simp_all
  · have h2 : ¬ (st.Textures.length > 0 ∧ st.vtkgl.ActiveTexture = true) := by
      intro hh; exact h ⟨List.length_pos.mp hh.1, hh.2⟩
    simp only [PostRender, State.log]
    split_ifs <;> simp_all

theorem RenderTextures_frame (ren : RenderContext) (st : State) :
    (RenderTextures ren st).2.Textures = st.Textures ∧
    (RenderTextures ren st).2.TextureUnitManager = st.TextureUnitManager ∧
    (RenderTextures ren st).2.BackfaceCulling = st.BackfaceCulling ∧
    (RenderTextures ren st).2.FrontfaceCulling = st.FrontfaceCulling ∧
    (RenderTextures ren st).2.vtkgl =
      (if st.Textures ≠ [] then (LoadMultiTexturingExtensions ren st).vtkgl else st.vtkgl) ∧
    (RenderTextures ren st).2.activeTexture =
      (if st.Textures ≠ [] ∧ (LoadMultiTexturingExtensions ren st).vtkgl.ActiveTexture = true
        then 0 else st.activeTexture) := by
  have hL := LoadMultiTexturingExtensions_frame ren st
  by_cases hN : st.Textures ≠ []
  · rw [RenderTextures_eq ren st hN]
    cases hAT : (LoadMultiTexturingExtensions ren st).vtkgl.ActiveTexture
    · obtain ⟨s, rest, hs⟩ := List.exists_cons_of_ne_nil hN
      simp [RenderTextures_fixed, hAT, hL, hs, State.log]
    · simp [RenderTextures_fixed, hAT, hL, hN, State.log, ActiveTexture,
        RenderTextures_loop_frame]
  · have h0 : st.Textures = [] := by simpa using hN
    simp [RenderTextures, h0, State.log]

theorem postRenderCalls_congr (ren : RenderContext) (st st1 : State)
    (hT : st1.Textures = st.Textures) (hv : st1.vtkgl = st.vtkgl)
    (hB : st1.BackfaceCulling = st.BackfaceCulling)
    (hF : st1.FrontfaceCulling = st.FrontfaceCulling) :
    postRenderCalls ren st1 = postRenderCalls ren st := by
  simp only [postRenderCalls, postRenderPrologue, hT, hv, hB, hF]

theorem free_not_mem_releaseCalls (M : Int) (slots : List TextureSlot) (u : Int) :
    GLCall.Free u ∉ slots.flatMap (releaseCalls M) := by
  simp only [List.mem_flatMap, not_exists, not_and]
  intro s _
  unfold releaseCalls
  split_ifs <;> simp

theorem free_not_mem_postRenderCalls (ren : RenderContext) (st : State) (u : Int) :
    GLCall.Free u ∉ postRenderCalls ren st := by
  have h := free_not_mem_releaseCalls ren.MAX_TEXTURE_UNITS st.Textures u
  simp only [postRenderCalls, postRenderPrologue]
  split_ifs <;> simp [h]

theorem diagnostics_releaseCalls (M : Int) (slots : List TextureSlot) :
    (diagnostics (slots.flatMap (releaseCalls M))).length =
      (slots.filter (fun s => decide (¬ (0 ≤ s.unit ∧ s.unit < M)))).length := by
  induction slots with
  | nil => rfl
  | cons s rest ih =>
    by_cases h : 0 ≤ s.unit ∧ s.unit < M
    · rw [List.filter_cons_of_neg (by simp [h]), ← ih]
      simp [diagnostics, releaseCalls, h, List.filterMap_append]
    · rw [List.filter_cons_of_pos (by simp [h]), List.length_cons, ← ih]
      simp [diagnostics, releaseCalls, h, List.filterMap_append]

theorem diagnostics_postRenderCalls (ren : RenderContext) (st : State)
    (hN : st.Textures ≠ []) (hAT : st.vtkgl.ActiveTexture = true) :
    (diagnostics (postRenderCalls ren st)).length =
      (st.Textures.filter
        (fun s => decide (¬ (0 ≤ s.unit ∧ s.unit < ren.MAX_TEXTURE_UNITS)))).length := by
  have h := diagnostics_releaseCalls ren.MAX_TEXTURE_UNITS st.Textures
  have hne : ¬ st.Textures = [] := hN
  simp only [diagnostics] at h
  simp only [postRenderCalls, postRenderPrologue]
  split_ifs <;> simp_all [diagnostics, List.filterMap_append]

theorem RenderTextures_true (ren : RenderContext) (st : State)
    (hok : (RenderTextures ren st).1 = true) : st.Textures ≠ [] := by
  intro h0
  simp [RenderTextures, h0] at hok

theorem ReleaseGraphicsResources_loop_calls (M : Int) (slots : List TextureSlot)
    (st : State) :
    (ReleaseGraphicsResources_loop M slots st).calls =
      st.calls ++ slots.flatMap (releaseResourceCalls M) := by
  induction slots generalizing st with
  | nil => simp [ReleaseGraphicsResources_loop]
  | cons s rest ih =>
    by_cases hi : s.index = 0
    · simp [ReleaseGraphicsResources_loop, hi, ih, releaseResourceCalls]
    · by_cases h : 0 ≤ s.unit ∧ s.unit < M
      · have h2 : ¬ (s.unit ≥ M ∨ s.unit < 0) := by omega
        simp [ReleaseGraphicsResources_loop, hi, h2, ih, releaseResourceCalls, h, State.log,
          ActiveTexture]
      · have h2 : s.unit ≥ M ∨ s.unit < 0 := by omega
        simp [ReleaseGraphicsResources_loop, hi, h2, ih, releaseResourceCalls, h, State.log]

theorem ReleaseGraphicsResources_all_calls (slots : List TextureSlot) (st : State) :
    (ReleaseGraphicsResources_all slots st).calls =
      st.calls ++ slots.map (fun s => GLCall.TextureRelease s.texture) ∧
    (ReleaseGraphicsResources_all slots st).activeTexture = st.activeTexture := by
  induction slots generalizing st with
  | nil => simp [ReleaseGraphicsResources_all]
  | cons s rest ih =>
    simp [ReleaseGraphicsResources_all, ih, State.log]

theorem released_releaseResourceCalls (M : Int) (slots : List TextureSlot) :
    released (slots.flatMap (releaseResourceCalls M)) =
      (slots.filter (fun s => decide (s.index ≠ 0 ∧ 0 ≤ s.unit ∧ s.unit < M))).map
        TextureSlot.texture := by
  induction slots with
  | nil => rfl
  | cons s rest ih =>
    by_cases hi : s.index = 0
    · rw [List.filter_cons_of_neg (by simp [hi]), ← ih]
      simp [released, releaseResourceCalls, hi, List.filterMap_append]
    · by_cases h : 0 ≤ s.unit ∧ s.unit < M
      · rw [List.filter_cons_of_pos (by simp [hi, h]), List.map_cons, ← ih]
        simp [released, releaseResourceCalls, hi, h, List.filterMap_append]
      · rw [List.filter_cons_of_neg (by simp only [decide_eq_true_eq]; tauto), ← ih]
        simp [released, releaseResourceCalls, hi, h, List.filterMap_append]

theorem isPoolCall_bindCalls (M : Int) (slots : List TextureSlot) :
    ∀ c ∈ slots.flatMap (bindCalls M),
      c.isPoolCall = false ∧ c ≠ GLCall.Error Diagnostic.notEnoughUnits := by
  intro c hc
  obtain ⟨s, _, hs⟩ := List.mem_flatMap.mp hc
  unfold bindCalls at hs
  split_ifs at hs
  · simp only [List.mem_cons, List.mem_singleton, List.not_mem_nil, or_false] at hs
    rcases hs with h | h <;> subst h <;> simp [GLCall.isPoolCall]
  · simp only [List.mem_singleton] at hs
    subst hs
    simp [GLCall.isPoolCall]

theorem isPoolCall_releaseCalls (M : Int) (slots : List TextureSlot) :
    ∀ c ∈ slots.flatMap (releaseCalls M), c.isPoolCall = false := by
  intro c hc
  obtain ⟨s, _, hs⟩ := List.mem_flatMap.mp hc
  unfold releaseCalls at hs
  split_ifs at hs
  · simp only [List.mem_cons, List.mem_singleton, List.not_mem_nil, or_false] at hs
    rcases hs with h | h | h | h | h | h <;> subst h <;> simp [GLCall.isPoolCall]
  · simp only [List.mem_singleton] at hs
    subst hs
    simp [GLCall.isPoolCall]

theorem isPoolCall_postRenderCalls (ren : RenderContext) (st : State) :
    ∀ c ∈ postRenderCalls ren st, c.isPoolCall = false := by
  have hpro : ∀ c ∈ postRenderPrologue st, c.isPoolCall = false := by
    cases hB : (st.BackfaceCulling || st.FrontfaceCulling) <;>
      simp [postRenderPrologue, hB, GLCall.isPoolCall]
  intro c hc
  simp only [postRenderCalls, List.mem_append] at hc
  rcases hc with (h | h) | h
  · exact hpro c h
  · split_ifs at h
    · simp only [List.mem_append, List.mem_singleton] at h
      rcases h with (h | h) | h
      · subst h; simp [GLCall.isPoolCall]
      · exact isPoolCall_releaseCalls ren.MAX_TEXTURE_UNITS st.Textures c h
      · subst h; simp [GLCall.isPoolCall]
    · simp at h
  · simp only [List.mem_singleton] at h
    subst h
    simp [GLCall.isPoolCall]

theorem activations_postRenderCalls (ren : RenderContext) (st : State) :
    activations (postRenderCalls ren st) =
      if st.Textures ≠ [] ∧ st.vtkgl.ActiveTexture = true then
        inRangeUnits ren.MAX_TEXTURE_UNITS st.Textures ++ [0]
      else [] := by
  have hact := activations_releaseCalls ren.MAX_TEXTURE_UNITS st.Textures
  simp only [activations] at hact
  simp only [postRenderCalls, postRenderPrologue]
  split_ifs <;> simp_all [activations, List.filterMap_append]

/-- The calls of one `RenderTextures`: what they activate, and that none of
them belongs to pool-mode binding. -/
theorem RenderTextures_new_calls (ren : RenderContext) (st : State) :
    ∃ new : List GLCall,
      (RenderTextures ren st).2.calls = st.calls ++ new ∧
      activations new =
        (if st.Textures ≠ [] ∧
            (LoadMultiTexturingExtensions ren st).vtkgl.ActiveTexture = true then
          inRangeUnits ren.MAX_TEXTURE_UNITS st.Textures ++ [0]
        else []) ∧
      ∀ c ∈ new, c.isPoolCall = false ∧ c ≠ GLCall.Error Diagnostic.notEnoughUnits := by
  by_cases hN : st.Textures ≠ []
  · obtain ⟨probe, hp, hprobe⟩ := LoadMultiTexturingExtensions_calls_probe ren st
    have hprobe2 : ∀ c ∈ probe,
        c.isPoolCall = false ∧ c ≠ GLCall.Error Diagnostic.notEnoughUnits := by
      intro c hc
      rcases hprobe c hc with ⟨n, h | h | h⟩ <;> simp [h, GLCall.isPoolCall]
    have hap := activations_probe probe hprobe
    cases hAT : (LoadMultiTexturingExtensions ren st).vtkgl.ActiveTexture
    · obtain ⟨s, rest, hs⟩ := List.exists_cons_of_ne_nil hN
      refine ⟨probe ++ [GLCall.TextureRender s.texture, GLCall.OpenGLCheckError], ?_, ?_, ?_⟩
      · rw [RenderTextures_eq ren st hN]
        simp [RenderTextures_fixed, hAT, (LoadMultiTexturingExtensions_frame ren st).1, hs,
          State.log, hp]
      · simp only [activations] at hap
        simp [activations, List.filterMap_append, hap]
      · intro c hc
        rcases List.mem_append.mp hc with h | h
        · exact hprobe2 c h
        · simp at h
          rcases h with h | h <;> simp [h, GLCall.isPoolCall]
    · refine ⟨probe ++ [GLCall.GetMaxTextureUnits] ++
          st.Textures.flatMap (bindCalls ren.MAX_TEXTURE_UNITS) ++
          [GLCall.ActiveTexture 0, GLCall.OpenGLCheckError], ?_, ?_, ?_⟩
      · rw [RenderTextures_eq ren st hN]
        simp [State.log, RenderTextures_fixed_calls ren st hAT, hp]
      · have hb := activations_bindCalls ren.MAX_TEXTURE_UNITS st.Textures
        simp only [activations] at hap hb
        simp [activations, List.filterMap_append, hap, hb, hN]
      · intro c hc
        simp only [List.mem_append] at hc
        rcases hc with ((h | h) | h) | h
        · exact hprobe2 c h
        · simp at h
          simp [h, GLCall.isPoolCall]
        · exact isPoolCall_bindCalls _ _ c h
        · simp at h
          rcases h with h | h <;> simp [h, GLCall.isPoolCall]
  · have h0 : st.Textures = [] := by simpa using hN
    refine ⟨[GLCall.OpenGLCheckError], ?_, ?_, ?_⟩
    · simp [RenderTextures, h0, State.log]
    · simp [activations, h0]
    · simp [GLCall.isPoolCall]

/-! ## Claims -/

/-- C1: fixed-unit bind. With at least one slot and the `ActiveTexture` entry
point resolved after probing, the calls of `RenderTextures` are the probing
calls, the query of the hardware maximum, then slot by slot either the pair
(activate the slot's own unit, render its texture) when the unit is in
`[0, M)` or exactly one "hardware does not support" diagnostic otherwise, and
finally the activation of unit 0; the activated unit is the slot's unit
itself, not wrapped or clamped. -/
theorem RenderTextures_fixed_unit_bind (ren : RenderContext) (st : State)
    (hN : st.Textures ≠ [])
    (hAT : (LoadMultiTexturingExtensions ren st).vtkgl.ActiveTexture = true) :
    (RenderTextures ren st).2.calls =
      (LoadMultiTexturingExtensions ren st).calls ++ [GLCall.GetMaxTextureUnits] ++
        st.Textures.flatMap (fun s =>
          if 0 ≤ s.unit ∧ s.unit < ren.MAX_TEXTURE_UNITS then
            [GLCall.ActiveTexture (toGLenum s.unit), GLCall.TextureRender s.texture]
          else
            [GLCall.Error Diagnostic.numberOfTextures]) ++
        [GLCall.ActiveTexture 0, GLCall.OpenGLCheckError] ∧
    (∀ s ∈ st.Textures, 0 ≤ s.unit → s.unit < ren.MAX_TEXTURE_UNITS →
      ren.MAX_TEXTURE_UNITS ≤ 2147483647 → (toGLenum s.unit : Int) = s.unit) := by
  refine ⟨?_, fun s _ h0 hM hint => toGLenum_of_inRange s.unit _ h0 hM hint⟩
  rw [RenderTextures_eq ren st hN]
  simp only [State.log, RenderTextures_fixed_calls ren st hAT]
  simp [bindCalls]
  rfl

/-- C1 witness: hardware maximum 4 and units 0, 5, 2: units 0 and 2 are bound
and one diagnostic is reported. -/
theorem RenderTextures_fixed_unit_bind_witness :
    (resolvedState slots052).Textures ≠ [] ∧
    (LoadMultiTexturingExtensions context4
      (resolvedState slots052)).vtkgl.ActiveTexture = true ∧
    (RenderTextures context4 (resolvedState slots052)).2.calls =
      [GLCall.GetMaxTextureUnits,
       GLCall.ActiveTexture 0, GLCall.TextureRender 10,
       GLCall.Error Diagnostic.numberOfTextures,
       GLCall.ActiveTexture 2, GLCall.TextureRender 12,
       GLCall.ActiveTexture 0, GLCall.OpenGLCheckError] :=
  ⟨by decide, by decide,
   (RenderTextures_fixed_unit_bind context4 (resolvedState slots052)
    (by decide) (by decide)).1.trans (by decide)⟩

/-- C4: single-texture degradation. When the `ActiveTexture` entry point is
still unresolved after probing, `RenderTextures` on a non-empty slot list
returns `true` and, after the probing calls, renders exactly the texture of
slot 0, whatever the units of the slots are; it activates no unit and does
not query the hardware maximum, and the active unit is left as it was. -/
theorem RenderTextures_single_texture (ren : RenderContext) (st : State)
    (s : TextureSlot) (rest : List TextureSlot) (hN : st.Textures = s :: rest)
    (hAT : (LoadMultiTexturingExtensions ren st).vtkgl.ActiveTexture = false) :
    (RenderTextures ren st).1 = true ∧
    (RenderTextures ren st).2.calls =
      (LoadMultiTexturingExtensions ren st).calls ++
        [GLCall.TextureRender s.texture, GLCall.OpenGLCheckError] ∧
    rendered ((RenderTextures ren st).2.calls.drop st.calls.length) = [s.texture] ∧
    activations ((RenderTextures ren st).2.calls.drop st.calls.length) = [] ∧
    GLCall.GetMaxTextureUnits ∉ (RenderTextures ren st).2.calls.drop st.calls.length ∧
    (RenderTextures ren st).2.activeTexture = st.activeTexture := by
  have hne : st.Textures ≠ [] := by simp [hN]
  have hT := (LoadMultiTexturingExtensions_frame ren st).1
  have hA := (LoadMultiTexturingExtensions_frame ren st).2.1
  have hcalls : (RenderTextures ren st).2.calls =
      (LoadMultiTexturingExtensions ren st).calls ++
        [GLCall.TextureRender s.texture, GLCall.OpenGLCheckError] := by
    rw [RenderTextures_eq ren st hne]
    simp [RenderTextures_fixed, hAT, hT, hN, State.log]
  obtain ⟨probe, hp, hprobe⟩ := LoadMultiTexturingExtensions_calls_probe ren st
  refine ⟨by rw [RenderTextures_eq ren st hne], hcalls, ?_, ?_, ?_, ?_⟩
  · rw [hcalls, hp, List.append_assoc, List.drop_left]
    simp [rendered, List.filterMap_append]
    intro c hc
    rcases hprobe c hc with ⟨n, h | h | h⟩ <;> simp [h]
  · rw [hcalls, hp, List.append_assoc, List.drop_left]
    simp [activations, List.filterMap_append]
    intro c hc
    rcases hprobe c hc with ⟨n, h | h | h⟩ <;> simp [h]
  · rw [hcalls, hp, List.append_assoc, List.drop_left]
    simp
    intro hc
    rcases hprobe _ hc with ⟨n, h | h | h⟩ <;> simp at h
  · rw [RenderTextures_eq ren st hne]
    simp [RenderTextures_fixed, hAT, hT, hN, State.log, hA]

/-- C4 witness: three slots on a context without multitexturing: only the
texture of slot 0 is rendered. -/
theorem RenderTextures_single_texture_witness :
    (LoadMultiTexturingExtensions context4
      (unresolvedState slots052)).vtkgl.ActiveTexture = false ∧
    (RenderTextures context4 (unresolvedState slots052)).1 = true ∧
    (RenderTextures context4 (unresolvedState slots052)).2.calls =
      (LoadMultiTexturingExtensions context4 (unresolvedState slots052)).calls ++
        [GLCall.TextureRender 10, GLCall.OpenGLCheckError] ∧
    rendered ((RenderTextures context4 (unresolvedState slots052)).2.calls.drop 0) = [10] ∧
    activations ((RenderTextures context4 (unresolvedState slots052)).2.calls.drop 0) = [] ∧
    GLCall.GetMaxTextureUnits ∉
      (RenderTextures context4 (unresolvedState slots052)).2.calls.drop 0 ∧
    (RenderTextures context4 (unresolvedState slots052)).2.activeTexture = 0 :=
  ⟨by decide,
   RenderTextures_single_texture context4 (unresolvedState slots052)
    { unit := 0, texture := 10, index := 1 }
    [{ unit := 5, texture := 11, index := 1 }, { unit := 2, texture := 12, index := 1 }]
    (by decide) (by decide)⟩

/-- C6: zero-slot case. With no slot `RenderTextures` returns `false` and only
checks the error flag: no probing, no query of the hardware maximum, no
activation, no texture rendered; `PostRender` then issues its prologue and the
error check only, hence no activation, no disabling of a texture target and
no pool call, and leaves the active unit and the pool as they were.
Conversely `RenderTextures` returns `true` for every non-empty slot list,
whatever the units are, so `false` means exactly "no textures". -/
theorem zero_slots (ren : RenderContext) (st : State) :
    (st.Textures = [] →
      RenderTextures ren st = (false, st.log GLCall.OpenGLCheckError) ∧
      (PostRender ren st).calls =
        st.calls ++ postRenderPrologue st ++ [GLCall.OpenGLCheckError] ∧
      (∀ c ∈ (PostRender ren st).calls.drop st.calls.length,
        c.isTextureUnitCall = false) ∧
      (PostRender ren st).activeTexture = st.activeTexture ∧
      (PostRender ren st).TextureUnitManager = st.TextureUnitManager) ∧
    (st.Textures ≠ [] → (RenderTextures ren st).1 = true) ∧
    ((RenderTextures ren st).1 = false ↔ st.Textures = []) := by
  have hpos : st.Textures ≠ [] → (RenderTextures ren st).1 = true := by
    intro h
    rw [RenderTextures_eq ren st h]
  refine ⟨?_, hpos, ?_⟩
  · intro h0
    have hcalls : (PostRender ren st).calls =
        st.calls ++ postRenderPrologue st ++ [GLCall.OpenGLCheckError] := by
      simp only [PostRender, State.log, postRenderPrologue]
      split_ifs <;> simp_all
    refine ⟨by simp [RenderTextures, h0], hcalls, ?_, ?_, ?_⟩
    · rw [hcalls, List.append_assoc, List.drop_left]
      cases hB : (st.BackfaceCulling || st.FrontfaceCulling) <;>
        simp [postRenderPrologue, hB, GLCall.isTextureUnitCall]
    · simp only [PostRender, State.log]
      split_ifs <;> simp_all
    · simp only [PostRender, State.log]
      split_ifs <;> simp_all
  · constructor
    · intro hf
      by_contra hne
      rw [hpos hne] at hf
      exact Bool.noConfusion hf
    · intro h0
      simp [RenderTextures, h0]

/-- C6 witness: no slot on a resolved context, and three slots whose units are
all out of range. -/
theorem zero_slots_witness :
    RenderTextures context4 (resolvedState []) =
      (false, (resolvedState []).log GLCall.OpenGLCheckError) ∧
    (PostRender context4 (resolvedState [])).calls =
      [GLCall.OpenGLClearError, GLCall.SuperclassPostRender, GLCall.OpenGLCheckError] ∧
    (RenderTextures context4
      (resolvedState [{ unit := 7, texture := 10, index := 1 },
        { unit := -1, texture := 11, index := 1 }])).1 = true :=
  ⟨((zero_slots context4 (resolvedState [])).1 (by decide)).1,
   ((zero_slots context4 (resolvedState [])).1 (by decide)).2.1.trans (by decide),
   (zero_slots context4 (resolvedState [{ unit := 7, texture := 10, index := 1 },
        { unit := -1, texture := 11, index := 1 }])).2.1 (by decide)⟩

/-- C9 (amended): capability probing. When both entry points are resolved the
call issues no query and no load. Otherwise it always issues the three support
queries, in the order GL_VERSION_1_3, GL_VERSION_1_2, GL_ARB_multitexture, and
only then loads the first satisfied tier: GL_VERSION_1_3 alone when GL 1.3 is
supported, else GL_VERSION_1_2 and GL_ARB_multitexture when both are
supported, else nothing. -/
theorem LoadMultiTexturingExtensions_probing (ren : RenderContext) (st : State) :
    (LoadMultiTexturingExtensions ren st).calls =
      st.calls ++
        (if st.vtkgl.MultiTexCoord2d = true ∧ st.vtkgl.ActiveTexture = true then []
         else
          [GLCall.ExtensionSupported ExtensionName.GL_VERSION_1_3,
           GLCall.ExtensionSupported ExtensionName.GL_VERSION_1_2,
           GLCall.ExtensionSupported ExtensionName.GL_ARB_multitexture] ++
          (if ren.ExtensionSupported ExtensionName.GL_VERSION_1_3 ≠ 0 then
            [GLCall.LoadExtension ExtensionName.GL_VERSION_1_3]
           else if ren.ExtensionSupported ExtensionName.GL_VERSION_1_2 ≠ 0 ∧
              ren.ExtensionSupported ExtensionName.GL_ARB_multitexture ≠ 0 then
            [GLCall.LoadExtension ExtensionName.GL_VERSION_1_2,
             GLCall.LoadCorePromotedExtension ExtensionName.GL_ARB_multitexture]
           else [])) := by
  simp only [LoadMultiTexturingExtensions, State.log]
  split_ifs <;> simp_all

/-- C9 counterexample: GL 1.3 is supported, so the first tier is satisfied, and
yet the probes of the second tier (GL_VERSION_1_2 and GL_ARB_multitexture) are
still issued before GL_VERSION_1_3 is loaded. -/
theorem second_tier_probes_not_skipped :
    context13.ExtensionSupported ExtensionName.GL_VERSION_1_3 ≠ 0 ∧
    (LoadMultiTexturingExtensions context13 (unresolvedState [])).calls =
      [GLCall.ExtensionSupported ExtensionName.GL_VERSION_1_3,
       GLCall.ExtensionSupported ExtensionName.GL_VERSION_1_2,
       GLCall.ExtensionSupported ExtensionName.GL_ARB_multitexture,
       GLCall.LoadExtension ExtensionName.GL_VERSION_1_3] ∧
    GLCall.ExtensionSupported ExtensionName.GL_VERSION_1_2 ∈
      (LoadMultiTexturingExtensions context13 (unresolvedState [])).calls ∧
    GLCall.ExtensionSupported ExtensionName.GL_ARB_multitexture ∈
      (LoadMultiTexturingExtensions context13 (unresolvedState [])).calls := by
  decide

/-- C7: fixed-unit release. With at least one slot and the `ActiveTexture`
entry point resolved, `PostRender` issues, after its prologue and the query of
the hardware maximum, slot by slot either the activation of the slot's unit
followed by the disabling of the five texture targets (1D, 2D, 3D, rectangle,
cube map) when the unit is in `[0, M)`, or the same diagnostic as the bind
otherwise; its last texture call activates unit 0, which is the active unit
afterwards; and the units it activates are the units activated by the
matching fixed-unit `RenderTextures`. -/
theorem PostRender_fixed_unit_release (ren : RenderContext) (st : State)
    (hN : st.Textures ≠ []) (hAT : st.vtkgl.ActiveTexture = true) :
    (PostRender ren st).calls =
      st.calls ++ postRenderPrologue st ++ [GLCall.GetMaxTextureUnits] ++
        st.Textures.flatMap (fun s =>
          if 0 ≤ s.unit ∧ s.unit < ren.MAX_TEXTURE_UNITS then
            [GLCall.ActiveTexture (toGLenum s.unit),
             GLCall.Disable Capability.GL_TEXTURE_1D,
             GLCall.Disable Capability.GL_TEXTURE_2D,
             GLCall.Disable Capability.TEXTURE_3D,
             GLCall.Disable Capability.TEXTURE_RECTANGLE_ARB,
             GLCall.Disable Capability.TEXTURE_CUBE_MAP]
          else
            [GLCall.Error Diagnostic.numberOfTextures]) ++
        [GLCall.ActiveTexture 0, GLCall.OpenGLCheckError] ∧
    (PostRender ren st).activeTexture = 0 ∧
    activations ((PostRender ren st).calls.drop st.calls.length) =
      inRangeUnits ren.MAX_TEXTURE_UNITS st.Textures ++ [0] ∧
    ((LoadMultiTexturingExtensions ren st).vtkgl.ActiveTexture = true →
      activations ((RenderTextures ren st).2.calls.drop st.calls.length) =
        inRangeUnits ren.MAX_TEXTURE_UNITS st.Textures ++ [0] ∧
      activations ((PostRender ren (RenderTextures ren st).2).calls.drop
          (RenderTextures ren st).2.calls.length) =
        activations ((RenderTextures ren st).2.calls.drop st.calls.length)) := by
  have hrel : ∀ st1 : State, st1.Textures = st.Textures → st1.vtkgl.ActiveTexture = true →
      activations ((PostRender ren st1).calls.drop st1.calls.length) =
        inRangeUnits ren.MAX_TEXTURE_UNITS st.Textures ++ [0] := by
    intro st1 hT hA
    rw [PostRender_calls, List.drop_left]
    have hne : ¬ st1.Textures = [] := by rw [hT]; exact hN
    simp only [postRenderCalls, postRenderPrologue, hT, hA]
    have hact := activations_releaseCalls ren.MAX_TEXTURE_UNITS st.Textures
    simp only [activations] at hact
    split_ifs <;> simp_all [activations, List.filterMap_append]
  refine ⟨?_, ?_, hrel st rfl hAT, ?_⟩
  · rw [PostRender_calls]
    have hne : ¬ st.Textures = [] := hN
    simp [postRenderCalls, hne, hAT]
    rfl
  · rw [PostRender_activeTexture]
    simp [hN, hAT]
  · intro hL
    have hbind : activations ((RenderTextures ren st).2.calls.drop st.calls.length) =
        inRangeUnits ren.MAX_TEXTURE_UNITS st.Textures ++ [0] := by
      obtain ⟨probe, hp, hprobe⟩ := LoadMultiTexturingExtensions_calls_probe ren st
      rw [RenderTextures_eq ren st hN]
      simp only [State.log, RenderTextures_fixed_calls ren st hL, hp]
      simp only [List.append_assoc, List.drop_left]
      have h1 := activations_probe probe hprobe
      have h2 := activations_bindCalls ren.MAX_TEXTURE_UNITS st.Textures
      simp only [activations] at h1 h2
      simp [activations, List.filterMap_append, h1, h2]
    refine ⟨hbind, ?_⟩
    rw [hbind]
    have hF := RenderTextures_frame ren st
    apply hrel _ hF.1
    rw [hF.2.2.2.2.1]
    simp [hN, hL]

/-- C7 witness: hardware maximum 4 and units 0, 5, 2: units 0 and 2 are
released, slot 1 is reported, and unit 0 is restored. -/
theorem PostRender_fixed_unit_release_witness :
    (resolvedState slots052).Textures ≠ [] ∧
    (resolvedState slots052).vtkgl.ActiveTexture = true ∧
    (PostRender context4 (resolvedState slots052)).calls =
      [GLCall.OpenGLClearError, GLCall.SuperclassPostRender, GLCall.GetMaxTextureUnits,
       GLCall.ActiveTexture 0,
       GLCall.Disable Capability.GL_TEXTURE_1D, GLCall.Disable Capability.GL_TEXTURE_2D,
       GLCall.Disable Capability.TEXTURE_3D, GLCall.Disable Capability.TEXTURE_RECTANGLE_ARB,
       GLCall.Disable Capability.TEXTURE_CUBE_MAP,
       GLCall.Error Diagnostic.numberOfTextures,
       GLCall.ActiveTexture 2,
       GLCall.Disable Capability.GL_TEXTURE_1D, GLCall.Disable Capability.GL_TEXTURE_2D,
       GLCall.Disable Capability.TEXTURE_3D, GLCall.Disable Capability.TEXTURE_RECTANGLE_ARB,
       GLCall.Disable Capability.TEXTURE_CUBE_MAP,
       GLCall.ActiveTexture 0, GLCall.OpenGLCheckError] ∧
    (PostRender context4 (resolvedState slots052)).activeTexture = 0 :=
  ⟨by decide, by decide,
   (PostRender_fixed_unit_release context4 (resolvedState slots052)
      (by decide) (by decide)).1.trans (by decide),
   (PostRender_fixed_unit_release context4 (resolvedState slots052)
      (by decide) (by decide)).2.1⟩

/-- C2 (amended): `RenderTextures` followed by `PostRender` leaves the active
unit equal to 0 whenever there is at least one slot and the `ActiveTexture`
entry point is resolved after probing, whatever the units of the slots are;
with no slot, or with the entry point unresolved, neither call activates any
unit and the active unit is left as it was. Neither call issues a call of
pool-mode binding and the pool is left as it was, so its free count is the
one before `RenderTextures`. -/
theorem bind_release_active_unit (ren : RenderContext) (st : State) :
    (PostRender ren (RenderTextures ren st).2).activeTexture =
      (if st.Textures ≠ [] ∧ (LoadMultiTexturingExtensions ren st).vtkgl.ActiveTexture = true
        then 0 else st.activeTexture) ∧
    (PostRender ren (RenderTextures ren st).2).TextureUnitManager = st.TextureUnitManager ∧
    (PostRender ren (RenderTextures ren st).2).TextureUnitManager.freeCount =
      st.TextureUnitManager.freeCount ∧
    activations ((PostRender ren (RenderTextures ren st).2).calls.drop st.calls.length) =
      (if st.Textures ≠ [] ∧ (LoadMultiTexturingExtensions ren st).vtkgl.ActiveTexture = true
        then
          inRangeUnits ren.MAX_TEXTURE_UNITS st.Textures ++ [0] ++
            (inRangeUnits ren.MAX_TEXTURE_UNITS st.Textures ++ [0])
        else []) ∧
    (∀ c ∈ (PostRender ren (RenderTextures ren st).2).calls.drop st.calls.length,
      c.isPoolCall = false) := by
  have hF := RenderTextures_frame ren st
  have hP := PostRender_frame ren (RenderTextures ren st).2
  obtain ⟨new, hnew, hact, hpool⟩ := RenderTextures_new_calls ren st
  have hcalls : (PostRender ren (RenderTextures ren st).2).calls.drop st.calls.length =
      new ++ postRenderCalls ren (RenderTextures ren st).2 := by
    rw [PostRender_calls, hnew, List.append_assoc, List.drop_left]
  have hactP := activations_postRenderCalls ren (RenderTextures ren st).2
  rw [hF.1, hF.2.2.2.2.1] at hactP
  refine ⟨?_, by rw [hP.2.2.1, hF.2.1], by rw [hP.2.2.1, hF.2.1], ?_, ?_⟩
  · rw [PostRender_activeTexture, hF.1, hF.2.2.2.2.1, hF.2.2.2.2.2]
    by_cases hN : st.Textures ≠ []
    · by_cases hL : (LoadMultiTexturingExtensions ren st).vtkgl.ActiveTexture = true <;>
        simp [hN, hL]
    · simp [hN]
  · have happ : activations (new ++ postRenderCalls ren (RenderTextures ren st).2) =
        activations new ++ activations (postRenderCalls ren (RenderTextures ren st).2) := by
      simp [activations, List.filterMap_append]
    rw [hcalls, happ, hact, hactP]
    by_cases hN : st.Textures ≠ []
    · by_cases hL : (LoadMultiTexturingExtensions ren st).vtkgl.ActiveTexture = true <;>
        simp [hN, hL]
    · simp [hN]
  · intro c hc
    rw [hcalls] at hc
    rcases List.mem_append.mp hc with h | h
    · exact (hpool c h).1
    · exact isPoolCall_postRenderCalls ren _ c h

/-- C2 counterexample: no slot and unit 3 active before the bind: after
`RenderTextures` and `PostRender` the active unit is still 3, not 0. -/
theorem active_unit_not_restored_without_slots :
    activeUnit3.Textures.length = 0 ∧
    (PostRender context4 (RenderTextures context4 activeUnit3).2).activeTexture = 3 ∧
    (PostRender context4 (RenderTextures context4 activeUnit3).2).activeTexture ≠ 0 := by
  decide

/-- C5 (amended): after a successful `RenderTextures`, a second `PostRender`
leaves the pool as the first one did, which is as it was before the bind:
no `PostRender` issues a `Free`. The second call does not find the slots
released: it sees the same slots and issues exactly the calls of the first
one again, among them one diagnostic for every slot whose unit is out of
range when the `ActiveTexture` entry point is resolved. -/
theorem PostRender_twice (ren : RenderContext) (st0 : State)
    (hok : (RenderTextures ren st0).1 = true) :
    (PostRender ren (PostRender ren (RenderTextures ren st0).2)).TextureUnitManager =
      (PostRender ren (RenderTextures ren st0).2).TextureUnitManager ∧
    (PostRender ren (RenderTextures ren st0).2).TextureUnitManager =
      st0.TextureUnitManager ∧
    (PostRender ren (PostRender ren (RenderTextures ren st0).2)).Textures = st0.Textures ∧
    (PostRender ren (PostRender ren (RenderTextures ren st0).2)).calls.drop
        (PostRender ren (RenderTextures ren st0).2).calls.length =
      (PostRender ren (RenderTextures ren st0).2).calls.drop
        (RenderTextures ren st0).2.calls.length ∧
    (∀ u, GLCall.Free u ∉
      (PostRender ren (PostRender ren (RenderTextures ren st0).2)).calls.drop
        (RenderTextures ren st0).2.calls.length) ∧
    ((RenderTextures ren st0).2.vtkgl.ActiveTexture = true →
      (diagnostics ((PostRender ren (PostRender ren (RenderTextures ren st0).2)).calls.drop
        (PostRender ren (RenderTextures ren st0).2).calls.length)).length =
      (st0.Textures.filter
        (fun s => decide (¬ (0 ≤ s.unit ∧ s.unit < ren.MAX_TEXTURE_UNITS)))).length) := by
  have hN := RenderTextures_true ren st0 hok
  have hF := RenderTextures_frame ren st0
  have hP := PostRender_frame ren (RenderTextures ren st0).2
  have hPP := PostRender_frame ren (PostRender ren (RenderTextures ren st0).2)
  have hsame : postRenderCalls ren (PostRender ren (RenderTextures ren st0).2) =
      postRenderCalls ren (RenderTextures ren st0).2 :=
    postRenderCalls_congr ren _ _ hP.1 hP.2.1 hP.2.2.2.1 hP.2.2.2.2
  have hsecond : (PostRender ren (PostRender ren (RenderTextures ren st0).2)).calls.drop
        (PostRender ren (RenderTextures ren st0).2).calls.length =
      postRenderCalls ren (RenderTextures ren st0).2 := by
    rw [PostRender_calls ren (PostRender ren (RenderTextures ren st0).2), List.drop_left, hsame]
  have hfirst : (PostRender ren (RenderTextures ren st0).2).calls.drop
        (RenderTextures ren st0).2.calls.length =
      postRenderCalls ren (RenderTextures ren st0).2 := by
    rw [PostRender_calls ren (RenderTextures ren st0).2, List.drop_left]
  refine ⟨hPP.2.2.1, by rw [hP.2.2.1, hF.2.1], by rw [hPP.1, hP.1, hF.1],
    by rw [hsecond, hfirst], ?_, ?_⟩
  · intro u
    rw [PostRender_calls ren (PostRender ren (RenderTextures ren st0).2),
      PostRender_calls ren (RenderTextures ren st0).2, hsame, List.append_assoc,
      List.drop_left]
    simp [free_not_mem_postRenderCalls]
  · intro hAT
    rw [hsecond, diagnostics_postRenderCalls ren _ (by rw [hF.1]; exact hN) hAT, hF.1]

/-- C5 witness: units 5 and 0 on a context with four units. -/
theorem PostRender_twice_witness :
    (RenderTextures context4 (resolvedState slots50)).1 = true ∧
    (PostRender context4 (PostRender context4
      (RenderTextures context4 (resolvedState slots50)).2)).TextureUnitManager =
      (PostRender context4
        (RenderTextures context4 (resolvedState slots50)).2).TextureUnitManager ∧
    (PostRender context4 (PostRender context4
      (RenderTextures context4 (resolvedState slots50)).2)).Textures = slots50 :=
  ⟨by decide,
   (PostRender_twice context4 (resolvedState slots50) (by decide)).1,
   (PostRender_twice context4 (resolvedState slots50) (by decide)).2.2.1⟩

/-- C5 counterexample: after a successful bind of units 5 and 0 on a context
with four units, the second `PostRender` reports the diagnostic for the slot
with unit 5 again and activates and disables unit 0 again: it reports an
error and still observes the assigned slots. -/
theorem second_PostRender_not_silent :
    (RenderTextures context4 (resolvedState slots50)).1 = true ∧
    (PostRender context4 (PostRender context4
      (RenderTextures context4 (resolvedState slots50)).2)).calls.drop
        (PostRender context4 (RenderTextures context4 (resolvedState slots50)).2).calls.length =
      [GLCall.OpenGLClearError, GLCall.SuperclassPostRender, GLCall.GetMaxTextureUnits,
       GLCall.Error Diagnostic.numberOfTextures,
       GLCall.ActiveTexture 0,
       GLCall.Disable Capability.GL_TEXTURE_1D, GLCall.Disable Capability.GL_TEXTURE_2D,
       GLCall.Disable Capability.TEXTURE_3D, GLCall.Disable Capability.TEXTURE_RECTANGLE_ARB,
       GLCall.Disable Capability.TEXTURE_CUBE_MAP,
       GLCall.ActiveTexture 0, GLCall.OpenGLCheckError] ∧
    diagnostics ((PostRender context4 (PostRender context4
      (RenderTextures context4 (resolvedState slots50)).2)).calls.drop
        (PostRender context4 (RenderTextures context4 (resolvedState slots50)).2).calls.length)
      ≠ [] := by
  decide

/-- C10 (amended): `ReleaseGraphicsResources` with the `ActiveTexture` entry
point resolved and at least one slot. For a live and mapped window the
released textures are exactly those of the slots whose handle is non-zero
and whose unit is in `[0, M)`, each released right after the activation of
its own unit, and unit 0 is active at the end; for a null or unmapped window
every slot's texture is released, in slot order, with no activation. With no
slot nothing is released or activated. -/
theorem ReleaseGraphicsResources_passthrough (ren : RenderContext)
    (win : Option vtkWindow) (st : State) (hAT : st.vtkgl.ActiveTexture = true) :
    (st.Textures ≠ [] → liveAndMapped win = true →
      (ReleaseGraphicsResources ren win st).calls =
        st.calls ++ [GLCall.OpenGLClearError, GLCall.GetMaxTextureUnits] ++
          st.Textures.flatMap (fun s =>
            if s.index = 0 then []
            else if 0 ≤ s.unit ∧ s.unit < ren.MAX_TEXTURE_UNITS then
              [GLCall.ActiveTexture (toGLenum s.unit), GLCall.TextureRelease s.texture]
            else
              [GLCall.Error (Diagnostic.textureUnit s.unit)]) ++
          [GLCall.ActiveTexture 0, GLCall.OpenGLCheckError,
           GLCall.SuperclassReleaseGraphicsResources] ∧
      released ((ReleaseGraphicsResources ren win st).calls.drop st.calls.length) =
        (st.Textures.filter (fun s =>
          decide (s.index ≠ 0 ∧ 0 ≤ s.unit ∧ s.unit < ren.MAX_TEXTURE_UNITS))).map
          TextureSlot.texture ∧
      (ReleaseGraphicsResources ren win st).activeTexture = 0) ∧
    (st.Textures ≠ [] → liveAndMapped win = false →
      (ReleaseGraphicsResources ren win st).calls =
        st.calls ++ st.Textures.map (fun s => GLCall.TextureRelease s.texture) ++
          [GLCall.SuperclassReleaseGraphicsResources] ∧
      (ReleaseGraphicsResources ren win st).activeTexture = st.activeTexture) ∧
    (st.Textures = [] →
      (ReleaseGraphicsResources ren win st).calls =
        st.calls ++ [GLCall.SuperclassReleaseGraphicsResources] ∧
      (ReleaseGraphicsResources ren win st).activeTexture = st.activeTexture) := by
  refine ⟨?_, ?_, ?_⟩
  · intro hN hw
    have hpos : st.Textures.length > 0 := List.length_pos.mpr hN
    have hcalls : (ReleaseGraphicsResources ren win st).calls =
        st.calls ++ [GLCall.OpenGLClearError, GLCall.GetMaxTextureUnits] ++
          st.Textures.flatMap (releaseResourceCalls ren.MAX_TEXTURE_UNITS) ++
          [GLCall.ActiveTexture 0, GLCall.OpenGLCheckError,
           GLCall.SuperclassReleaseGraphicsResources] := by
      simp [ReleaseGraphicsResources, hw, hpos, hAT, State.log, ActiveTexture,
        ReleaseGraphicsResources_loop_calls]
    refine ⟨?_, ?_, ?_⟩
    · rw [hcalls]; rfl
    · rw [hcalls]
      simp only [List.append_assoc, List.drop_left]
      have h := released_releaseResourceCalls ren.MAX_TEXTURE_UNITS st.Textures
      simp only [released] at h
      simp [released, List.filterMap_append, h]
    · simp [ReleaseGraphicsResources, hw, hpos, hAT, State.log, ActiveTexture]
  · intro hN hw
    have hpos : st.Textures.length > 0 := List.length_pos.mpr hN
    simp [ReleaseGraphicsResources, hw, hpos, hAT, State.log,
      ReleaseGraphicsResources_all_calls]
  · intro h0
    simp [ReleaseGraphicsResources, h0, State.log]

/-- C10 witness: a mapped window, four units, and three slots of which only the
last has both a handle and an in-range unit. -/
theorem ReleaseGraphicsResources_passthrough_witness :
    (resolvedState slotsMixed).vtkgl.ActiveTexture = true ∧
    (ReleaseGraphicsResources context4 (some { Mapped := true })
        (resolvedState slotsMixed)).calls =
      [GLCall.OpenGLClearError, GLCall.GetMaxTextureUnits,
       GLCall.Error (Diagnostic.textureUnit 9),
       GLCall.ActiveTexture 3, GLCall.TextureRelease 12,
       GLCall.ActiveTexture 0, GLCall.OpenGLCheckError,
       GLCall.SuperclassReleaseGraphicsResources] ∧
    (ReleaseGraphicsResources context4 none (resolvedState slotsMixed)).calls =
      [GLCall.TextureRelease 10, GLCall.TextureRelease 11, GLCall.TextureRelease 12,
       GLCall.SuperclassReleaseGraphicsResources] :=
  ⟨by decide,
   ((ReleaseGraphicsResources_passthrough context4 (some { Mapped := true })
      (resolvedState slotsMixed) (by decide)).1 (by decide) (by decide)).1.trans (by decide),
   ((ReleaseGraphicsResources_passthrough context4 none
      (resolvedState slotsMixed) (by decide)).2.1 (by decide) (by decide)).1.trans
      (by decide)⟩

/-- C10 counterexample: with the `ActiveTexture` entry point unresolved, a slot
with a live handle and unit 0 of four is released neither for a mapped
window nor for a null one. -/
theorem unresolved_entry_point_releases_nothing :
    slots0 = [{ unit := 0, texture := 10, index := 1 }] ∧
    released (ReleaseGraphicsResources context4 (some { Mapped := true })
      (unresolvedState slots0)).calls = [] ∧
    released (ReleaseGraphicsResources context4 none (unresolvedState slots0)).calls = [] := by
  decide
end vtkOpenGL2Property
